import Mathlib

/-!
Verification of `src/dags/snowflake_vertex_pipeline.py`, a three-task Airflow
DAG: `extract_new_entries` (Snowflake incremental extraction driven by a
high-water-mark timestamp), `call_vertex_ai_agent` (one generative-model call
per batch), and `update_watermark` (persists the new high-water-mark).

Shallow embedding conventions:
- the Airflow `Variable` store is a partial map `String → Option String`;
  `Variable.get` raising `KeyError` on a missing key is modelled by `none`;
- external SDK calls (Snowflake connection/query, Vertex AI init/generate)
  are parameters of type `Except`, one per call site, describing the outcome
  the environment hands back at that call;
- a Python function that can raise returns `Except String _`; the error
  payload is only a label, the control flow is what is modelled;
- row values are modelled in their `str(...)`-rendered form, so the `str`
  applied by the pipeline is the identity on the model;
- XCom JSON serialization (`json.dumps` then `json.loads` of a list of
  string-keyed records) is treated as the identity round-trip, so XCom slots
  carry the typed value directly, `none` when nothing was pushed;
- logging calls carry no data flow and are dropped, except where a claim is
  about a diagnostic being emitted, which is recorded as a `Bool` flag in the
  task's trace.
-/

namespace SnowflakeVertexPipeline

/-- The Airflow variable store: a partial map from variable keys to values.
`Variable.get` raising `KeyError` for an absent key is modelled by `none`. -/
def Store : Type := String → Option String

/-- Airflow Variable key that persists the high-water-mark between runs. -/
def HWM_VARIABLE_KEY : String := "snowflake_pipeline_hwm"

/-- Embeds `_load_variable(key, default)`: return the stored value, falling
back to `default` when `Variable.get` raises `KeyError` (key absent). -/
def _load_variable (store : Store) (key : String) (default : String) : String :=
  match store key with
  | some value => value
  | none => default

/-- Embeds `_get_last_hwm()`: return the stored high-water-mark, or the epoch
string if the variable is absent (first-run semantics). -/
def _get_last_hwm (store : Store) : String :=
  match store HWM_VARIABLE_KEY with
  | some hwm => hwm
  | none => "1970-01-01T00:00:00Z"

/-- One result row converted by `dict(zip(columns, row))`: an association
list from column name to the string-rendered column value. -/
def Record : Type := List (String × String)

instance : DecidableEq Record :=
  inferInstanceAs (DecidableEq (List (String × String)))

/-- Embeds `r[col]` on the dict built by `dict(zip(columns, row))`: for a
duplicated column name the Python dict keeps the last binding, hence the
reversed lookup; a missing key (Python `KeyError`) is `none`. -/
def Record.get (r : Record) (col : String) : Option String :=
  r.reverse.lookup col

/-- Python `max` over a non-empty string sequence, first element as the
accumulator: `max` keeps the current value unless the next element is
strictly greater, under lexicographic (code-point) string comparison, which
is exactly Python's `<` on `str`. The comparison is written on the
character lists (`a.data < b.data`), which is `String` order unfolded one
step (`String.lt_iff_toList_lt`) and lets the kernel evaluate it on
concrete inputs. -/
def pyStrMax : String → List String → String
  | a, [] => a
  | a, b :: bs => pyStrMax (if a.data < b.data then b else a) bs

/-- The sequence `str(r[TIMESTAMP_COL]) for r in records`: `none` when some
record lacks the timestamp column (Python `KeyError` escaping the generator);
values are modelled already string-rendered, so `str` is the identity. -/
def timestampsOf (tcol : String) : List Record → Option (List String)
  | [] => some []
  | r :: rs =>
    match Record.get r tcol, timestampsOf tcol rs with
    | some t, some ts => some (t :: ts)
    | _, _ => none

/-- Embeds step 6 of `extract_new_entries`:
`new_hwm = max(str(r[TIMESTAMP_COL]) for r in records)` when `records` is
non-empty, else `new_hwm = hwm`. `none` models the `KeyError` raised when a
record lacks the timestamp column; the `some []` case is unreachable since a
non-empty batch yields as many timestamps as records. -/
def computeNewHwm (tcol hwm : String) : List Record → Option String
  | [] => some hwm
  | r :: rs =>
    match timestampsOf tcol (r :: rs) with
    | none => none
    | some [] => some hwm
    | some (t :: ts) => some (pyStrMax t ts)

/-- Outcomes handed back by the Snowflake SDK at the three call sites of
`extract_new_entries`: `hook.get_conn()`, the `ALTER SESSION SET TIMEZONE`
statement, and the extraction query. A successful query carries the
`cursor.description` column names and the `fetchall()` rows (values
string-rendered). -/
structure SnowflakeEnv where
  connectResult : Except String Unit
  alterSessionResult : Except String Unit
  queryResult : Except String (List String × List (List String))

/-- The three XCom values pushed by a successful `extract_new_entries` run:
`new_records` (the JSON-serialized batch, round-trip treated as identity),
`new_hwm`, and `record_count`. -/
structure ExtractOutput where
  new_records : List Record
  new_hwm : String
  record_count : Nat
deriving DecidableEq

/-- Observable trace of one `extract_new_entries` run: whether
`hook.get_conn()` succeeded (a connection was opened), whether the cursor and
the connection were closed by the time the task returned or propagated, and
the task outcome (`Except.error` models an uncaught exception). -/
structure ExtractTrace where
  connOpened : Bool
  cursorClosed : Bool
  connClosed : Bool
  result : Except String ExtractOutput

/-- Embeds `extract_new_entries`: read the high-water-mark, connect (a
connection failure re-raises before any cursor exists), run
`ALTER SESSION` and the extraction query inside `try/finally` (the `finally`
closes cursor and connection on success and on exception alike; the
diagnostic `DESCRIBE TABLE` on the error path only logs), then — after the
`finally` has closed both — convert rows to records, compute the new
high-water-mark, and push the three XCom values. -/
def extract_new_entries (tcol : String) (store : Store) (env : SnowflakeEnv) :
    ExtractTrace :=
  let hwm := _get_last_hwm store
  match env.connectResult with
  | .error e => ⟨false, false, false, .error e⟩
  | .ok _ =>
    match env.alterSessionResult with
    | .error e => ⟨true, true, true, .error e⟩
    | .ok _ =>
      match env.queryResult with
      | .error e => ⟨true, true, true, .error e⟩
      | .ok (columns, rows) =>
        let records : List Record := rows.map (fun row => columns.zip row)
        match computeNewHwm tcol hwm records with
        | none => ⟨true, true, true, .error "KeyError: TIMESTAMP_COL"⟩
        | some new_hwm =>
          ⟨true, true, true, .ok ⟨records, new_hwm, records.length⟩⟩

/-- Outcomes handed back by the Vertex AI SDK at the two call sites of
`call_vertex_ai_agent`: `aiplatform.init(...)` and
`model.generate_content(prompt)` (the `.text` access counts as part of the
generation outcome, both sit in the same `try`). -/
structure VertexEnv where
  initResult : Except String Unit
  generateResult : Except String String

/-- Observable trace of one `call_vertex_ai_agent` run: whether the task
logged the missing-upstream-XCom warning, whether it attempted SDK
initialisation, whether it attempted the model call, and the task outcome —
`Except.ok` carries the `agent_response` value pushed to XCom,
`Except.error` models an uncaught exception. -/
structure NotifierTrace where
  warnedMissingUpstream : Bool
  sdkInitAttempted : Bool
  modelCallAttempted : Bool
  result : Except String String

/-- The fixed reply pushed when the batch is empty. -/
def noEntriesReply : String := "No new entries to process."

/-- The fixed fallback reply substituted when the generation call fails. -/
def fallbackReply : String := "Hi (fallback — agent unreachable)"

/-- Embeds `call_vertex_ai_agent`: pull `new_records` from XCom (`none`
logs a warning attributing the absence to upstream failure and proceeds with
an empty list); an empty batch short-circuits with the fixed no-entries
reply, contacting nothing; otherwise `aiplatform.init` is attempted and a
failure there is re-raised (`raise` in the `except` block), while a failure
of the generation call is swallowed and replaced by the fixed fallback
reply, which is pushed as `agent_response`. -/
def call_vertex_ai_agent (records_json : Option (List Record))
    (env : VertexEnv) : NotifierTrace :=
  let warned := records_json.isNone
  let records := match records_json with
    | none => []
    | some rs => rs
  if records.isEmpty then
    ⟨warned, false, false, .ok noEntriesReply⟩
  else
    match env.initResult with
    | .error e => ⟨warned, true, false, .error e⟩
    | .ok _ =>
      match env.generateResult with
      | .error _ => ⟨warned, true, true, .ok fallbackReply⟩
      | .ok reply => ⟨warned, true, true, .ok reply⟩

/-- Embeds `update_watermark`: pull `new_hwm`, `record_count` and
`agent_response` from XCom; only `new_hwm` is validated — when it is `none`
the task raises `ValueError` and performs no `Variable.set`; otherwise it
sets the high-water-mark variable unconditionally. The first component is
the task outcome, the second the list of `Variable.set` calls performed. -/
def update_watermark (new_hwm : Option String) (record_count : Option Nat)
    (agent_response : Option String) :
    Except String Unit × List (String × String) :=
  match new_hwm, record_count, agent_response with
  | none, _, _ => (.error "new_hwm is None — cannot update watermark.", [])
  | some w, _, _ => (.ok (), [(HWM_VARIABLE_KEY, w)])

/-- The running Python `max` is one of its inputs. -/
theorem pyStrMax_mem (a : String) (l : List String) : pyStrMax a l ∈ a :: l := by
  induction l generalizing a with
  | nil => simp [pyStrMax]
  | cons b bs ih =>
    have h := ih (if a.data < b.data then b else a)
    show pyStrMax (if a.data < b.data then b else a) bs ∈ a :: b :: bs
    rcases List.mem_cons.mp h with h1 | h1
    · rw [h1]
      split
      · exact List.mem_cons_of_mem _ (List.mem_cons_self _ _)
      · exact List.mem_cons_self _ _
    · exact List.mem_cons_of_mem _ (List.mem_cons_of_mem _ h1)

/-- The running Python `max` dominates the accumulator and every element,
in the lexicographic string order. -/
theorem le_pyStrMax (a : String) (l : List String) :
    a ≤ pyStrMax a l ∧ ∀ c ∈ l, c ≤ pyStrMax a l := by
  induction l generalizing a with
  | nil => exact ⟨le_refl a, by simp⟩
  | cons b bs ih =>
    have h := ih (if a.data < b.data then b else a)
    have hab : a ≤ (if a.data < b.data then b else a) := by
      split
      · exact le_of_lt (String.lt_iff_toList_lt.mpr (by assumption))
      · exact le_refl a
    have hbb : b ≤ (if a.data < b.data then b else a) := by
      split
      · exact le_refl b
      · exact not_lt.mp (fun hlt =>
          (by assumption : ¬ a.data < b.data) (String.lt_iff_toList_lt.mp hlt))
    show a ≤ pyStrMax (if a.data < b.data then b else a) bs ∧
      ∀ c ∈ b :: bs, c ≤ pyStrMax (if a.data < b.data then b else a) bs
    refine ⟨le_trans hab h.1, ?_⟩
    intro c hc
    rcases List.mem_cons.mp hc with h1 | h1
    · rw [h1]; exact le_trans hbb h.1
    · exact h.2 c h1

/-- `timestampsOf` yields one timestamp per record when it succeeds. -/
theorem timestampsOf_length (tcol : String) :
    ∀ (records : List Record) (ts : List String),
      timestampsOf tcol records = some ts → ts.length = records.length := by
  intro records
  induction records with
  | nil =>
    intro ts h
    simp [timestampsOf] at h
    subst h
    rfl
  | cons r rs ih =>
    intro ts h
    cases hg : Record.get r tcol with
    | none => simp [timestampsOf, hg] at h
    | some t =>
      cases hr : timestampsOf tcol rs with
      | none => simp [timestampsOf, hg, hr] at h
      | some ts2 =>
        simp [timestampsOf, hg, hr] at h
        subst h
        simp [ih ts2 hr]

/-- A property of every looked-up timestamp of a batch transports to the
list produced by `timestampsOf`. -/
theorem timestampsOf_forall (tcol : String) (P : String → Prop) :
    ∀ (records : List Record) (ts : List String),
      timestampsOf tcol records = some ts →
      (∀ r ∈ records, ∀ t, Record.get r tcol = some t → P t) →
      ∀ t ∈ ts, P t := by
  intro records
  induction records with
  | nil =>
    intro ts h _
    simp [timestampsOf] at h
    subst h
    simp
  | cons r rs ih =>
    intro ts h hP
    cases hg : Record.get r tcol with
    | none => simp [timestampsOf, hg] at h
    | some t =>
      cases hr : timestampsOf tcol rs with
      | none => simp [timestampsOf, hg, hr] at h
      | some ts2 =>
        simp [timestampsOf, hg, hr] at h
        subst h
        intro u hu
        rcases List.mem_cons.mp hu with h1 | h1
        · subst h1
          exact hP r (List.mem_cons_self _ _) u hg
        · exact ih ts2 hr
            (fun r2 hr2 => hP r2 (List.mem_cons_of_mem _ hr2)) u h1

/-- Empty batch: the computed watermark is the prior one. -/
theorem computeNewHwm_nil (tcol hwm : String) :
    computeNewHwm tcol hwm [] = some hwm := rfl

/-- With every looked-up timestamp of the batch strictly above the prior
watermark, the computed watermark never regresses. -/
theorem computeNewHwm_ge (tcol hwm : String) (records : List Record)
    (hWhere : ∀ r ∈ records, ∀ t, Record.get r tcol = some t → hwm < t) :
    ∀ w, computeNewHwm tcol hwm records = some w → hwm ≤ w := by
  intro w hw
  cases records with
  | nil =>
    simp [computeNewHwm] at hw
    exact le_of_eq hw
  | cons r rs =>
    cases hts : timestampsOf tcol (r :: rs) with
    | none => simp [computeNewHwm, hts] at hw
    | some ts =>
      cases ts with
      | nil =>
        simp [computeNewHwm, hts] at hw
        exact le_of_eq hw
      | cons t ts2 =>
        simp [computeNewHwm, hts] at hw
        subst hw
        have hall : ∀ u ∈ t :: ts2, hwm < u :=
          timestampsOf_forall tcol (fun u => hwm < u) (r :: rs) (t :: ts2)
            hts hWhere
        exact le_of_lt
          (lt_of_lt_of_le (hall t (List.mem_cons_self _ _)) (le_pyStrMax t ts2).1)

/-- The computed watermark of a non-empty batch is the lexicographic maximum
of its timestamps, and of an empty batch the prior watermark unchanged. -/
theorem computeNewHwm_eq_maximum (tcol hwm : String) (records : List Record)
    (w : String) (hw : computeNewHwm tcol hwm records = some w) :
    (records = [] → w = hwm) ∧
    (∀ ts, timestampsOf tcol records = some ts → records ≠ [] →
      ts.maximum = (w : WithBot String)) := by
  constructor
  · intro h
    subst h
    simp [computeNewHwm] at hw
    exact hw.symm
  · intro ts hts hne
    cases records with
    | nil => exact absurd rfl hne
    | cons r rs =>
      cases ts with
      | nil =>
        have := timestampsOf_length tcol (r :: rs) [] hts
        simp at this
      | cons t ts2 =>
        simp [computeNewHwm, hts] at hw
        subst hw
        rw [Subsingleton.elim String.decidableLT
          (fun a b : String => instDecidableLt_mathlib a b)]
        refine List.maximum_eq_coe_iff.mpr ⟨pyStrMax_mem t ts2, ?_⟩
        intro a ha
        rcases List.mem_cons.mp ha with h1 | h1
        · rw [h1]; exact (le_pyStrMax t ts2).1
        · exact (le_pyStrMax t ts2).2 a h1

/-- A non-empty batch with a failing SDK initialisation re-raises. -/
theorem notifier_raises_on_init_failure (records : List Record)
    (env : VertexEnv) (h : records ≠ []) (e : String)
    (he : env.initResult = .error e) :
    (call_vertex_ai_agent (some records) env).result = .error e := by
  cases records with
  | nil => exact absurd rfl h
  | cons r rs =>
    unfold call_vertex_ai_agent
    simp [he]

/-- A non-empty batch with successful initialisation and a failing
generation call ends with the fixed fallback reply, not an exception. -/
theorem notifier_fallback_on_generation_failure (records : List Record)
    (env : VertexEnv) (h : records ≠ []) (e : String)
    (hi : env.initResult = .ok ()) (hg : env.generateResult = .error e) :
    (call_vertex_ai_agent (some records) env).result = .ok fallbackReply := by
  cases records with
  | nil => exact absurd rfl h
  | cons r rs =>
    unfold call_vertex_ai_agent
    simp [hi, hg]

/-- Claim C8: when no prior watermark variable exists in the variable store,
the Extractor's watermark read `_get_last_hwm` returns the epoch default
string `1970-01-01T00:00:00Z`. -/
theorem c8_first_run_epoch_default (store : Store)
    (h : store HWM_VARIABLE_KEY = none) :
    _get_last_hwm store = "1970-01-01T00:00:00Z" := by
  unfold _get_last_hwm
  rw [h]

/-- Witness for C8 on the empty store. -/
theorem c8_first_run_epoch_default_witness :
    (fun _ => none : Store) HWM_VARIABLE_KEY = none ∧
      _get_last_hwm (fun _ => none) = "1970-01-01T00:00:00Z" :=
  ⟨rfl, c8_first_run_epoch_default (fun _ => none) rfl⟩

/-- Claim C5: when the new-watermark value is absent at commit time,
`update_watermark` raises and performs no `Variable.set` call, leaving the
persisted watermark unchanged. -/
theorem c5_commit_raises_on_missing_hwm (record_count : Option Nat)
    (agent_response : Option String) :
    update_watermark none record_count agent_response =
      (.error "new_hwm is None — cannot update watermark.", []) := rfl

/-- Claim C10: `update_watermark` validates only the presence of the new
watermark: with `new_hwm` present but `record_count` and `agent_response`
both absent, it still persists the new watermark and completes without
raising. -/
theorem c10_commit_validates_only_hwm (w : String) :
    update_watermark (some w) none none =
      (.ok (), [(HWM_VARIABLE_KEY, w)]) := rfl

/-- Claim C6: for an empty batch the Notifier attempts neither SDK
initialisation nor a model call, and pushes the fixed no-entries reply. -/
theorem c6_empty_batch_no_contact (env : VertexEnv) :
    call_vertex_ai_agent (some []) env =
      ⟨false, false, false, .ok noEntriesReply⟩ := rfl

/-- Claim C7: a downstream step finding an expected inter-step key absent
treats the absence as upstream failure: the Notifier, pulling `new_records`
as `none`, logs the warning attributing the absence to the upstream extract
task, contacts nothing and degrades to the no-entries reply; the Committer,
pulling `new_hwm` as `none`, raises and performs no `Variable.set`. -/
theorem c7_missing_xcom_is_upstream_failure (env : VertexEnv)
    (record_count : Option Nat) (agent_response : Option String) :
    call_vertex_ai_agent none env =
      ⟨true, false, false, .ok noEntriesReply⟩ ∧
    update_watermark none record_count agent_response =
      (.error "new_hwm is None — cannot update watermark.", []) :=
  ⟨rfl, rfl⟩

/-- Claim C3 as stated is false on the code: with a non-empty batch and a
failing `aiplatform.init`, `call_vertex_ai_agent` re-raises (its `except`
block ends in `raise`), so the Notifier does raise past its step on an
initialisation failure; only the generation call is protected by the
fallback reply. -/
theorem c3_counterexample_init_failure_raises :
    (call_vertex_ai_agent (some [[("CREATED_AT", "2025-01-02T00:00:00Z")]])
        ⟨.error "init failed", .ok "Hi"⟩).result = .error "init failed" := rfl

/-- Claim C3 amended: for every non-empty batch, a failure of the generation
call is swallowed — the Notifier logs, substitutes the fixed fallback reply
and does not re-raise — whereas a failure of Vertex AI SDK initialisation is
re-raised past the step. -/
theorem c3_amended_fallback_only_for_generation (records : List Record)
    (env : VertexEnv) (h : records ≠ []) :
    (∀ e, env.initResult = .error e →
      (call_vertex_ai_agent (some records) env).result = .error e) ∧
    (∀ e, env.initResult = .ok () → env.generateResult = .error e →
      (call_vertex_ai_agent (some records) env).result = .ok fallbackReply) := by
  cases records with
  | nil => exact absurd rfl h
  | cons r rs =>
    constructor
    · intro e he
      unfold call_vertex_ai_agent
      simp [he]
    · intro e hi hg
      unfold call_vertex_ai_agent
      simp [hi, hg]

/-- Witness for the amended C3 at a one-record batch and a failing
generation call. -/
theorem c3_amended_fallback_only_for_generation_witness :
    (call_vertex_ai_agent (some [[("CREATED_AT", "2025-01-02T00:00:00Z")]])
        ⟨.ok (), .error "quota exceeded"⟩).result = .ok fallbackReply :=
  (c3_amended_fallback_only_for_generation
      [[("CREATED_AT", "2025-01-02T00:00:00Z")]]
      ⟨.ok (), .error "quota exceeded"⟩
      (List.cons_ne_nil _ _)).2 "quota exceeded" rfl rfl

/-- Claim C9: on every exit path of `extract_new_entries` after a connection
is opened — success, query failure, or post-query processing failure — both
the cursor and the data-source connection are closed before the task returns
or propagates an exception. -/
theorem c9_connection_released_on_every_path (tcol : String) (store : Store)
    (env : SnowflakeEnv)
    (h : (extract_new_entries tcol store env).connOpened = true) :
    (extract_new_entries tcol store env).cursorClosed = true ∧
    (extract_new_entries tcol store env).connClosed = true := by
  obtain ⟨cr, ar, qr⟩ := env
  cases cr with
  | error e => simp [extract_new_entries] at h
  | ok u =>
    cases ar with
    | error e => exact ⟨rfl, rfl⟩
    | ok u2 =>
      cases qr with
      | error e => exact ⟨rfl, rfl⟩
      | ok p =>
        obtain ⟨columns, rows⟩ := p
        constructor <;>
          · simp only [extract_new_entries]
            split <;> rfl

/-- Witness for C9 on a successful one-row run. -/
theorem c9_connection_released_on_every_path_witness :
    (extract_new_entries "CREATED_AT" (fun _ => none)
        ⟨.ok (), .ok (),
          .ok (["CREATED_AT"], [["2025-01-02T00:00:00Z"]])⟩).connOpened
        = true ∧
    ((extract_new_entries "CREATED_AT" (fun _ => none)
        ⟨.ok (), .ok (),
          .ok (["CREATED_AT"], [["2025-01-02T00:00:00Z"]])⟩).cursorClosed
        = true ∧
      (extract_new_entries "CREATED_AT" (fun _ => none)
        ⟨.ok (), .ok (),
          .ok (["CREATED_AT"], [["2025-01-02T00:00:00Z"]])⟩).connClosed
        = true) :=
  ⟨rfl, c9_connection_released_on_every_path _ _ _ rfl⟩

/-- Claim C1: for every stored watermark and every batch fetched by the
extraction query — whose WHERE clause admits only rows with a timestamp
above the watermark, read here at the string level the code compares at —
the new watermark computed by `extract_new_entries` satisfies new ≥ old
under lexical string ordering, and new = old when the batch is empty. -/
theorem c1_watermark_monotone (tcol : String) (store : Store)
    (env : SnowflakeEnv) (columns : List String) (rows : List (List String))
    (hq : env.queryResult = .ok (columns, rows))
    (hWhere : ∀ row ∈ rows, ∀ t,
      Record.get (columns.zip row) tcol = some t → _get_last_hwm store < t) :
    (∀ out, (extract_new_entries tcol store env).result = .ok out →
      _get_last_hwm store ≤ out.new_hwm) ∧
    (rows = [] →
      ∀ out, (extract_new_entries tcol store env).result = .ok out →
        out.new_hwm = _get_last_hwm store) := by
  obtain ⟨cr, ar, qr⟩ := env
  simp only at hq
  subst hq
  cases cr with
  | error e =>
    refine ⟨fun out hout => ?_, fun _ out hout => ?_⟩ <;>
      simp [extract_new_entries] at hout
  | ok u =>
    cases ar with
    | error e =>
      refine ⟨fun out hout => ?_, fun _ out hout => ?_⟩ <;>
        simp [extract_new_entries] at hout
    | ok u2 =>
      have hrecs :
          extract_new_entries tcol store ⟨.ok u, .ok u2, .ok (columns, rows)⟩ =
            match computeNewHwm tcol (_get_last_hwm store)
                (rows.map fun row => columns.zip row) with
            | none => ⟨true, true, true, .error "KeyError: TIMESTAMP_COL"⟩
            | some new_hwm =>
              ⟨true, true, true,
                .ok ⟨rows.map fun row => columns.zip row, new_hwm,
                  (rows.map fun row => columns.zip row).length⟩⟩ := rfl
      constructor
      · intro out hout
        rw [hrecs] at hout
        cases hc : computeNewHwm tcol (_get_last_hwm store)
            (rows.map fun row => columns.zip row) with
        | none => rw [hc] at hout; cases hout
        | some w =>
          rw [hc] at hout
          simp only at hout
          injection hout with hout2
          subst hout2
          have hWhere2 : ∀ r ∈ rows.map (fun row => columns.zip row), ∀ t,
              Record.get r tcol = some t → _get_last_hwm store < t := by
            intro r hr t ht
            obtain ⟨row, hrow, rfl⟩ := List.mem_map.mp hr
            exact hWhere row hrow t ht
          exact computeNewHwm_ge tcol (_get_last_hwm store)
            (rows.map fun row => columns.zip row) hWhere2 w hc
      · intro hrows out hout
        subst hrows
        rw [hrecs] at hout
        simp only [List.map_nil] at hout
        rw [computeNewHwm_nil] at hout
        simp only at hout
        injection hout with hout2
        subst hout2
        rfl

/-- Witness for C1 on a one-row batch above the epoch watermark. -/
theorem c1_watermark_monotone_witness :
    _get_last_hwm (fun _ => none) ≤
      (⟨[[("CREATED_AT", "2025-01-02T00:00:00Z")]],
        "2025-01-02T00:00:00Z", 1⟩ : ExtractOutput).new_hwm :=
  (c1_watermark_monotone "CREATED_AT" (fun _ => none)
      ⟨.ok (), .ok (), .ok (["CREATED_AT"], [["2025-01-02T00:00:00Z"]])⟩
      ["CREATED_AT"] [["2025-01-02T00:00:00Z"]] rfl
      (by
        intro row hrow t ht
        simp only [List.mem_singleton] at hrow
        subst hrow
        have hval : Record.get (["CREATED_AT"].zip ["2025-01-02T00:00:00Z"])
            "CREATED_AT" = some "2025-01-02T00:00:00Z" := rfl
        rw [hval] at ht
        injection ht with ht2
        subst ht2
        rw [String.lt_iff_toList_lt]
        decide)).1
    ⟨[[("CREATED_AT", "2025-01-02T00:00:00Z")]], "2025-01-02T00:00:00Z", 1⟩
    rfl

/-- Claim C2: for every run, the new watermark pushed by
`extract_new_entries` equals the maximum — by lexical comparison on the
string-serialized values — of the configured timestamp column across the
batch when the batch is non-empty, and equals the prior watermark unchanged
when the batch is empty. -/
theorem c2_new_hwm_is_batch_maximum (tcol : String) (store : Store)
    (env : SnowflakeEnv) :
    ∀ out, (extract_new_entries tcol store env).result = .ok out →
      (out.new_records = [] → out.new_hwm = _get_last_hwm store) ∧
      (∀ ts, timestampsOf tcol out.new_records = some ts →
        out.new_records ≠ [] →
        ts.maximum = (out.new_hwm : WithBot String)) := by
  obtain ⟨cr, ar, qr⟩ := env
  cases cr with
  | error e => intro out hout; simp [extract_new_entries] at hout
  | ok u =>
    cases ar with
    | error e => intro out hout; simp [extract_new_entries] at hout
    | ok u2 =>
      cases qr with
      | error e => intro out hout; simp [extract_new_entries] at hout
      | ok p =>
        obtain ⟨columns, rows⟩ := p
        intro out hout
        have hrecs :
            extract_new_entries tcol store
                ⟨.ok u, .ok u2, .ok (columns, rows)⟩ =
              match computeNewHwm tcol (_get_last_hwm store)
                  (rows.map fun row => columns.zip row) with
              | none => ⟨true, true, true, .error "KeyError: TIMESTAMP_COL"⟩
              | some new_hwm =>
                ⟨true, true, true,
                  .ok ⟨rows.map fun row => columns.zip row, new_hwm,
                    (rows.map fun row => columns.zip row).length⟩⟩ := rfl
        rw [hrecs] at hout
        cases hc : computeNewHwm tcol (_get_last_hwm store)
            (rows.map fun row => columns.zip row) with
        | none => rw [hc] at hout; cases hout
        | some w =>
          rw [hc] at hout
          simp only at hout
          injection hout with hout2
          subst hout2
          exact computeNewHwm_eq_maximum tcol (_get_last_hwm store)
            (rows.map fun row => columns.zip row) w hc

/-- Witness for C2 on a two-row batch: the pushed watermark is the maximum
of the two timestamps. -/
theorem c2_new_hwm_is_batch_maximum_witness :
    (["2025-01-02T00:00:00Z", "2025-01-03T00:00:00Z"] : List String).maximum =
      ((⟨[[("CREATED_AT", "2025-01-02T00:00:00Z")],
          [("CREATED_AT", "2025-01-03T00:00:00Z")]],
         "2025-01-03T00:00:00Z", 2⟩ : ExtractOutput).new_hwm : WithBot String) :=
  (c2_new_hwm_is_batch_maximum "CREATED_AT" (fun _ => none)
      ⟨.ok (), .ok (), .ok (["CREATED_AT"],
        [["2025-01-02T00:00:00Z"], ["2025-01-03T00:00:00Z"]])⟩
      ⟨[[("CREATED_AT", "2025-01-02T00:00:00Z")],
        [("CREATED_AT", "2025-01-03T00:00:00Z")]],
       "2025-01-03T00:00:00Z", 2⟩ rfl).2
    ["2025-01-02T00:00:00Z", "2025-01-03T00:00:00Z"] rfl
    (List.cons_ne_nil _ _)

/-- Claim C4: when the generative-model call fails on a run whose
extraction succeeded with a non-empty batch, the Notifier produces the
fixed fallback reply and the Committer still overwrites the persisted
watermark unconditionally with the Extractor's new watermark. -/
theorem c4_fallback_still_commits (tcol : String) (store : Store)
    (env : SnowflakeEnv) (venv : VertexEnv) (out : ExtractOutput) (e : String)
    (hex : (extract_new_entries tcol store env).result = .ok out)
    (hne : out.new_records ≠ [])
    (hinit : venv.initResult = .ok ())
    (hgen : venv.generateResult = .error e) :
    (call_vertex_ai_agent (some out.new_records) venv).result =
      .ok fallbackReply ∧
    update_watermark (some out.new_hwm) (some out.record_count)
        (some fallbackReply) =
      (.ok (), [(HWM_VARIABLE_KEY, out.new_hwm)]) :=
  ⟨notifier_fallback_on_generation_failure out.new_records venv hne e
      hinit hgen, rfl⟩

/-- Witness for C4 on a one-row run with a failing generation call. -/
theorem c4_fallback_still_commits_witness :
    (call_vertex_ai_agent
        (some [[("CREATED_AT", "2025-01-02T00:00:00Z")]])
        ⟨.ok (), .error "quota exceeded"⟩).result = .ok fallbackReply ∧
    update_watermark (some "2025-01-02T00:00:00Z") (some 1)
        (some fallbackReply) =
      (.ok (), [(HWM_VARIABLE_KEY, "2025-01-02T00:00:00Z")]) :=
  c4_fallback_still_commits "CREATED_AT" (fun _ => none)
    ⟨.ok (), .ok (), .ok (["CREATED_AT"], [["2025-01-02T00:00:00Z"]])⟩
    ⟨.ok (), .error "quota exceeded"⟩
    ⟨[[("CREATED_AT", "2025-01-02T00:00:00Z")]], "2025-01-02T00:00:00Z", 1⟩
    "quota exceeded" rfl (List.cons_ne_nil _ _) rfl rfl

end SnowflakeVertexPipeline
